import Mathlib

/-!
# Lending & Inventory Engine of the library-management system

Shallow embedding of the lending core of the Flask application:
the `Book` and `BorrowRecord` rows of `models.py`, the borrow/return
route handlers of `blueprints/student.py` and `blueprints/teacher.py`,
the book management of `blueprints/admin.py` (`add_book`, `edit_book`),
the fines view of `blueprints/student.py`, the stored-fine queries of
`blueprints/chatbot.py` and `routes.py`.

Modelling conventions:
* Dates (`db.Date` / `db.DateTime` columns) are whole days represented
  as `Int`; `timedelta(days=n)` is `+ n`; `(d1 - d2).days` is `d1 - d2`.
  The two `datetime.utcnow()` calls inside one request are the same day.
* The database tables are association lists keyed by the integer
  primary key; SQLAlchemy's autoincrement id is `freshRecordId`.
* `db.Float` money is `ℚ`; the `fine` column's default `0.0` is `0`.
* Presentation-only columns (title, author, cover, …) are omitted:
  no modelled operation reads or writes them.
* Each route handler is a function from its inputs and the database
  state to the next state plus a `LendResult` describing which
  flash/redirect branch was taken (`ok` = the success branch,
  `notFound` = `get_or_404` aborts with 404).
-/

/-- `Book` row (`models.py` lines 50-81), restricted to the columns the
lending engine reads or writes: `copies_total` and `copies_available`. -/
structure Book where
  copies_total : Int
  copies_available : Int
  deriving DecidableEq, Repr

/-- `BorrowRecord` row (`models.py` lines 89-101). -/
structure BorrowRecord where
  user_id : Nat
  book_id : Nat
  borrow_date : Int
  due_date : Int
  return_date : Option Int
  returned : Bool
  fine : ℚ
  deriving DecidableEq, Repr

/-- The mutable database state: the `books` and `borrow_records` tables,
as association lists keyed by primary key. -/
structure LibState where
  books : List (Nat × Book)
  records : List (Nat × BorrowRecord)
  deriving DecidableEq, Repr

/-- `init_db.py`: `db.create_all()` starts from empty tables. -/
def emptyState : LibState := ⟨[], []⟩

/-- Outcome of a borrow/return route handler: which flash/redirect
branch the handler took. -/
inductive LendResult where
  | ok
  | notFound
  | outOfStock
  | alreadyBorrowed
  | unauthorized
  | alreadyReturned
  deriving DecidableEq, Repr

/-- Update every row with key `k` (primary keys are unique, so this is
the SQLAlchemy in-place mutation of the row object). -/
def updateRow {β : Type} (k : Nat) (f : β → β) : List (Nat × β) → List (Nat × β) :=
  List.map (fun p => if p.1 = k then (p.1, f p.2) else p)

/-- Next autoincrement primary key for `borrow_records`. -/
def freshRecordId (s : LibState) : Nat :=
  s.records.foldr (fun p m => max p.1 m) 0 + 1

/-- The `existing = BorrowRecord.query.filter_by(user_id=..., book_id=...,
returned=False).first()` check of both borrow handlers, as a Bool
(`existing` is truthy iff some active loan matches). -/
def hasActiveLoan (uid bid : Nat) (s : LibState) : Bool :=
  s.records.any (fun p =>
    p.2.user_id == uid && p.2.book_id == bid && p.2.returned == false)

/-- The `copies_available` of book `bid` in state `s`, if the book exists. -/
def availableOf (s : LibState) (bid : Nat) : Option Int :=
  (s.books.lookup bid).map Book.copies_available

/-- Count of loans on book `bid` with `returned == False`. -/
def activeLoanCount (s : LibState) (bid : Nat) : Nat :=
  (s.records.filter (fun p => p.2.book_id == bid && p.2.returned == false)).length

namespace Student

/-- `blueprints/student.py` `borrow_book` (lines 117-152): 404 on a
missing book; reject when `copies_available <= 0`; reject when an
active loan by this user on this book exists; otherwise insert a
record with `due_date = today + timedelta(days=7)` and decrement
`copies_available`. -/
def borrow_book (uid bid : Nat) (today : Int) (s : LibState) :
    LibState × LendResult :=
  match s.books.lookup bid with
  | none => (s, .notFound)
  | some book =>
    if book.copies_available ≤ 0 then
      (s, .outOfStock)
    else if hasActiveLoan uid bid s then
      (s, .alreadyBorrowed)
    else
      (⟨updateRow bid
          (fun b => { b with copies_available := b.copies_available - 1 })
          s.books,
        (freshRecordId s,
          ⟨uid, bid, today, today + 7, none, false, 0⟩) :: s.records⟩,
       .ok)

/-- `blueprints/student.py` `return_book` (lines 158-179): 404 on a
missing record; reject when the record belongs to another user; reject
when the record is already returned; otherwise mark it returned with
`return_date = today` and increment the book's `copies_available`. -/
def return_book (uid rid : Nat) (today : Int) (s : LibState) :
    LibState × LendResult :=
  match s.records.lookup rid with
  | none => (s, .notFound)
  | some r =>
    if r.user_id ≠ uid then
      (s, .unauthorized)
    else if r.returned then
      (s, .alreadyReturned)
    else
      (⟨updateRow r.book_id
          (fun b => { b with copies_available := b.copies_available + 1 })
          s.books,
        updateRow rid
          (fun r0 => { r0 with returned := true, return_date := some today })
          s.records⟩,
       .ok)

/-- Per-record contribution to the `fines` view of
`blueprints/student.py` (lines 215-220): `days_late * fine_per_day`
with `fine_per_day = 5` when the record is unreturned and overdue,
nothing otherwise. This is the engine's per-loan fine as of `today`. -/
def fineContribution (r : BorrowRecord) (today : Int) : Int :=
  if r.returned = false ∧ r.due_date < today then (today - r.due_date) * 5 else 0

/-- `blueprints/student.py` `fines` (lines 205-226): iterate the user's
records, adding `days_late * 5` for each unreturned overdue record. -/
def fines (uid : Nat) (today : Int) (s : LibState) : Int :=
  (s.records.filter (fun p => p.2.user_id == uid)).foldl
    (fun acc p =>
      if p.2.returned = false ∧ p.2.due_date < today then
        acc + (today - p.2.due_date) * 5
      else acc)
    0

end Student

namespace Teacher

/-- `blueprints/teacher.py` `borrow_book` (lines 89-122): the same
checks as the student handler, with `due_date = utcnow() +
timedelta(days=14)`. -/
def borrow_book (uid bid : Nat) (today : Int) (s : LibState) :
    LibState × LendResult :=
  match s.books.lookup bid with
  | none => (s, .notFound)
  | some book =>
    if book.copies_available ≤ 0 then
      (s, .outOfStock)
    else if hasActiveLoan uid bid s then
      (s, .alreadyBorrowed)
    else
      (⟨updateRow bid
          (fun b => { b with copies_available := b.copies_available - 1 })
          s.books,
        (freshRecordId s,
          ⟨uid, bid, today, today + 14, none, false, 0⟩) :: s.records⟩,
       .ok)

/-- `blueprints/teacher.py` `return_book` (lines 128-144): 404 on a
missing record; reject when the record belongs to another user;
otherwise mark returned and increment `copies_available`.  Unlike the
student handler there is NO `record.returned` check. -/
def return_book (uid rid : Nat) (today : Int) (s : LibState) :
    LibState × LendResult :=
  match s.records.lookup rid with
  | none => (s, .notFound)
  | some r =>
    if r.user_id ≠ uid then
      (s, .unauthorized)
    else
      (⟨updateRow r.book_id
          (fun b => { b with copies_available := b.copies_available + 1 })
          s.books,
        updateRow rid
          (fun r0 => { r0 with returned := true, return_date := some today })
          s.records⟩,
       .ok)

end Teacher

namespace Admin

/-- `blueprints/admin.py` `add_book` (lines 141-205, copies logic): a
new book is created with `copies_available = copies_total`. -/
def add_book (bid : Nat) (copies_total : Int) (s : LibState) : LibState :=
  ⟨(bid, ⟨copies_total, copies_total⟩) :: s.books, s.records⟩

/-- `blueprints/admin.py` `edit_book` (lines 243-247, copies logic):
`borrowed = copies_total - copies_available; copies_total = new_total;
copies_available = max(new_total - borrowed, 0)`. -/
def edit_book (bid : Nat) (new_total : Int) (s : LibState) : LibState :=
  match s.books.lookup bid with
  | none => s
  | some book =>
    let borrowed := book.copies_total - book.copies_available
    ⟨updateRow bid
        (fun b => { b with
          copies_total := new_total,
          copies_available := max (new_total - borrowed) 0 })
        s.books,
      s.records⟩

end Admin

namespace Chatbot

/-- `blueprints/chatbot.py` `chatbot_api`, `check_fines` intent (lines
226-231): `sum(r.fine or 0 for r in BorrowRecord.query.filter_by(
user_id=current_user.id))` (`fine` is never NULL here, so `or 0` is
the identity). -/
def check_fines_total (uid : Nat) (s : LibState) : ℚ :=
  ((s.records.filter (fun p => p.2.user_id == uid)).map
    (fun p => p.2.fine)).sum

end Chatbot

namespace Routes

/-- `routes.py` `fines` (lines 71-86): the amounts of the user's
records with `fine > 0` ( the `fines_list` entries). -/
def fines_list (uid : Nat) (s : LibState) : List ℚ :=
  ((s.records.filter (fun p => p.2.user_id == uid)).filter
    (fun p => 0 < p.2.fine)).map (fun p => p.2.fine)

end Routes

/-- One state-mutating request against the database: the lending
handlers of the student and teacher blueprints and the admin book
management. -/
inductive Step : LibState → LibState → Prop where
  | student_borrow (uid bid : Nat) (today : Int) (s : LibState) :
      Step s (Student.borrow_book uid bid today s).1
  | teacher_borrow (uid bid : Nat) (today : Int) (s : LibState) :
      Step s (Teacher.borrow_book uid bid today s).1
  | student_return (uid rid : Nat) (today : Int) (s : LibState) :
      Step s (Student.return_book uid rid today s).1
  | teacher_return (uid rid : Nat) (today : Int) (s : LibState) :
      Step s (Teacher.return_book uid rid today s).1
  | admin_add (bid : Nat) (total : Int) (s : LibState) :
      Step s (Admin.add_book bid total s)
  | admin_edit (bid : Nat) (new_total : Int) (s : LibState) :
      Step s (Admin.edit_book bid new_total s)

/-- States reachable from the freshly created database by the
modelled requests. -/
inductive Reachable : LibState → Prop where
  | init : Reachable emptyState
  | step {s s' : LibState} : Reachable s → Step s s' → Reachable s'

/-! ## Concrete states and traces used by the closed theorems -/

/-- A one-book catalog: book 1 with `copies_total = 1`,
`copies_available = 1`, no loans. It satisfies the copy-count
invariant and is `Admin.add_book 1 1 emptyState`. -/
def demoState0 : LibState := ⟨[(1, ⟨1, 1⟩)], []⟩

/-- Teacher 1 borrows book 1 on day 0 (record id 1 is created). -/
def teacherTrace1 : LibState := (Teacher.borrow_book 1 1 0 demoState0).1

/-- Teacher 1 returns loan 1 on day 1. -/
def teacherTrace2 : LibState := (Teacher.return_book 1 1 1 teacherTrace1).1

/-- Teacher 1 returns loan 1 AGAIN on day 2: the handler has no
already-returned check, so it increments `copies_available` a second
time. -/
def teacherTrace3 : LibState := (Teacher.return_book 1 1 2 teacherTrace2).1

/-- Student 1 borrows book 1 on day 0 (7-day period, due day 7) and
returns it on day 10, three days late. -/
def c4State : LibState :=
  (Student.return_book 1 1 10 (Student.borrow_book 1 1 0 demoState0).1).1

/-- Book 1 with `copies_total = 2`, `copies_available = 1` (one copy
out), no loan records in view. -/
def c6State : LibState := ⟨[(1, ⟨2, 1⟩)], []⟩

/-- Book 1 out of stock (`copies_available = 0`) while user 1 holds an
active loan (record 1) on it. -/
def c7State : LibState := ⟨[(1, ⟨1, 0⟩)], [(1, ⟨1, 1, 0, 7, none, false, 0⟩)]⟩

/-! ## Claim theorems (concrete traces) -/

/-- C1: the claimed invariant `0 ≤ copies_available ≤ copies_total`
does NOT survive every sequence of student/teacher borrow and return
operations: starting from a catalog satisfying it (book 1: total 1,
available 1), a teacher borrow followed by two teacher returns of the
same loan — each accepted by the code — leaves `copies_available = 2 >
copies_total = 1`, because `Teacher.return_book` lacks the
already-returned guard. -/
theorem c1_invariant_violated_by_teacher_double_return :
    demoState0.books.lookup 1 = some ⟨1, 1⟩ ∧
    (Teacher.borrow_book 1 1 0 demoState0).2 = .ok ∧
    (Teacher.return_book 1 1 1 teacherTrace1).2 = .ok ∧
    (Teacher.return_book 1 1 2 teacherTrace2).2 = .ok ∧
    teacherTrace3.books.lookup 1 = some ⟨1, 2⟩ ∧
    ¬ ((2 : Int) ≤ 1) := by
  decide

/-- C2: a second Return on an already-returned loan by its owner is
NOT always rejected with AlreadyReturned: on the teacher path the loan
of `teacherTrace2` is already returned, yet the second return succeeds
(`ok`), changes the state, and pushes `copies_available` from 1 to 2. -/
theorem c2_teacher_second_return_not_rejected :
    (teacherTrace2.records.lookup 1).map BorrowRecord.returned = some true ∧
    (Teacher.return_book 1 1 2 teacherTrace2).2 = .ok ∧
    (Teacher.return_book 1 1 2 teacherTrace2).2 ≠ .alreadyReturned ∧
    (Teacher.return_book 1 1 2 teacherTrace2).1 ≠ teacherTrace2 ∧
    availableOf teacherTrace2 1 = some 1 ∧
    availableOf (Teacher.return_book 1 1 2 teacherTrace2).1 1 = some 2 := by
  decide

/-- C3: conservation (`copies_available = copies_total` minus the
number of unreturned loans) fails after the same teacher double-return
trace: the final state has `copies_available = 2` while `copies_total
- activeLoanCount = 1 - 0 = 1`. -/
theorem c3_conservation_violated_by_teacher_double_return :
    availableOf teacherTrace3 1 = some 2 ∧
    activeLoanCount teacherTrace3 1 = 0 ∧
    (teacherTrace3.books.lookup 1).map Book.copies_total = some 1 ∧
    (2 : Int) ≠ 1 - (activeLoanCount teacherTrace3 1 : Int) := by
  decide

/-- C4 counterexample: the loan of `c4State` was borrowed on day 0
with a 7-day period and returned on day 10 at daily rate 5, yet the
fines view reports a total of 0 for its user, not `5 * (10 - 7) = 15`:
the view only charges loans that are still unreturned. -/
theorem c4_counterexample_returned_late_loan_charged_zero :
    c4State.records.lookup 1 = some ⟨1, 1, 0, 7, some 10, true, 0⟩ ∧
    Student.fines 1 10 c4State = 0 ∧
    (0 : Int) ≠ 5 * (10 - 7) := by
  decide

/-- C6 counterexample: `Admin.edit_book` changes a book's
`copies_available` without any borrow or return: editing book 1 (total
2, available 1) to a new total of 5 rewrites `copies_available` from 1
to `max (5 - (2 - 1)) 0 = 4`, while the loan table is untouched. -/
theorem c6_counterexample_edit_book_changes_available :
    availableOf c6State 1 = some 1 ∧
    availableOf (Admin.edit_book 1 5 c6State) 1 = some 4 ∧
    ((4 : Int) ≠ 1) ∧
    (Admin.edit_book 1 5 c6State).records = c6State.records := by
  decide

/-- C7 counterexample: when the user already holds an active loan on
the book but no copy is available, Borrow answers OutOfStock, not
AlreadyBorrowed — the availability check runs first on both the
student and the teacher path. -/
theorem c7_counterexample_out_of_stock_checked_first :
    hasActiveLoan 1 1 c7State = true ∧
    availableOf c7State 1 = some 0 ∧
    (Student.borrow_book 1 1 3 c7State).2 = .outOfStock ∧
    (Student.borrow_book 1 1 3 c7State).2 ≠ .alreadyBorrowed ∧
    (Teacher.borrow_book 1 1 3 c7State).2 = .outOfStock ∧
    (Teacher.borrow_book 1 1 3 c7State).2 ≠ .alreadyBorrowed := by
  decide

/-! ## Helper lemmas -/

/-- Looking up the updated key after `updateRow` applies the update to
the previously stored row. -/
theorem lookup_updateRow {β : Type} (k : Nat) (f : β → β) (l : List (Nat × β)) :
    (updateRow k f l).lookup k = (l.lookup k).map f := by
  induction l with
  | nil => rfl
  | cons p l ih =>
    obtain ⟨a, b⟩ := p
    by_cases h : a = k
    · subst h
      show List.lookup a ((if a = a then (a, f b) else (a, b)) :: updateRow a f l)
          = Option.map f (List.lookup a ((a, b) :: l))
      rw [if_pos rfl]
      simp [List.lookup]
    · show List.lookup k ((if a = k then (a, f b) else (a, b)) :: updateRow k f l)
          = Option.map f (List.lookup k ((a, b) :: l))
      rw [if_neg h]
      have hk : (k == a) = false := beq_eq_false_iff_ne.mpr (Ne.symm h)
      simp only [List.lookup, hk]
      exact ih

/-- Looking up the head key of a cons cell. -/
theorem lookup_cons_self {β : Type} (k : Nat) (v : β) (l : List (Nat × β)) :
    List.lookup k ((k, v) :: l) = some v := by
  simp [List.lookup]

/-! ## C5: successful borrow effects -/

/-- C5: when the book exists, a copy is available and the user holds no
active loan on it, Borrow succeeds on both role paths, creates the loan
with `borrow_date = today` and `due_date = today + 7` (student) resp.
`today + 14` (teacher), and decrements the book's `copies_available` by
exactly 1. -/
theorem c5_borrow_success_effects (s : LibState) (uid bid : Nat) (today : Int)
    (book : Book)
    (hb : s.books.lookup bid = some book)
    (hav : 0 < book.copies_available)
    (hno : hasActiveLoan uid bid s = false) :
    (Student.borrow_book uid bid today s).2 = .ok ∧
    (Student.borrow_book uid bid today s).1.records.lookup (freshRecordId s)
      = some ⟨uid, bid, today, today + 7, none, false, 0⟩ ∧
    availableOf (Student.borrow_book uid bid today s).1 bid
      = some (book.copies_available - 1) ∧
    (Teacher.borrow_book uid bid today s).2 = .ok ∧
    (Teacher.borrow_book uid bid today s).1.records.lookup (freshRecordId s)
      = some ⟨uid, bid, today, today + 14, none, false, 0⟩ ∧
    availableOf (Teacher.borrow_book uid bid today s).1 bid
      = some (book.copies_available - 1) := by
  have hnotle : ¬ book.copies_available ≤ 0 := not_le.mpr hav
  have hnotloan : ¬ hasActiveLoan uid bid s = true := by
    simp [hno]
  refine ⟨?_, ?_, ?_, ?_, ?_, ?_⟩ <;>
    simp [Student.borrow_book, Teacher.borrow_book, hb, hnotle, hnotloan,
      availableOf, lookup_updateRow, lookup_cons_self]

/-- C5 witness: on `demoState0`, student and teacher borrows of book 1
on day 0 succeed with due dates 7 and 14 and leave 0 copies. -/
theorem c5_borrow_success_effects_witness :
    (Student.borrow_book 1 1 0 demoState0).2 = .ok ∧
    (Student.borrow_book 1 1 0 demoState0).1.records.lookup (freshRecordId demoState0)
      = some ⟨1, 1, 0, 0 + 7, none, false, 0⟩ ∧
    availableOf (Student.borrow_book 1 1 0 demoState0).1 1
      = some ((1 : Int) - 1) ∧
    (Teacher.borrow_book 1 1 0 demoState0).2 = .ok ∧
    (Teacher.borrow_book 1 1 0 demoState0).1.records.lookup (freshRecordId demoState0)
      = some ⟨1, 1, 0, 0 + 14, none, false, 0⟩ ∧
    availableOf (Teacher.borrow_book 1 1 0 demoState0).1 1
      = some ((1 : Int) - 1) :=
  c5_borrow_success_effects demoState0 1 1 0 ⟨1, 1⟩ (by decide) (by decide)
    (by decide)

/-! ## C7 (amended): the borrow checks run availability first -/

/-- C7 amended: the real rejection order is OutOfStock first, then
AlreadyBorrowed, on both role paths: with the book out of stock the
answer is OutOfStock regardless of an existing active loan, and the
AlreadyBorrowed answer is reached only when a copy is available. -/
theorem c7_borrow_check_order (s : LibState) (uid bid : Nat) (today : Int)
    (book : Book)
    (hb : s.books.lookup bid = some book) :
    (book.copies_available ≤ 0 →
      (Student.borrow_book uid bid today s).2 = .outOfStock ∧
      (Teacher.borrow_book uid bid today s).2 = .outOfStock) ∧
    (0 < book.copies_available → hasActiveLoan uid bid s = true →
      (Student.borrow_book uid bid today s).2 = .alreadyBorrowed ∧
      (Teacher.borrow_book uid bid today s).2 = .alreadyBorrowed) := by
  constructor
  · intro hle
    constructor <;> simp [Student.borrow_book, Teacher.borrow_book, hb, hle]
  · intro hav hloan
    have hnotle : ¬ book.copies_available ≤ 0 := not_le.mpr hav
    constructor <;>
      simp [Student.borrow_book, Teacher.borrow_book, hb, hnotle, hloan]

/-- C7 amended witness: on `c7State` (0 copies, active loan held) both
paths answer OutOfStock; on `c7State` with a copy restored the active
loan makes both paths answer AlreadyBorrowed. -/
theorem c7_borrow_check_order_witness :
    ((0 : Int) ≤ 0 →
      (Student.borrow_book 1 1 3 c7State).2 = .outOfStock ∧
      (Teacher.borrow_book 1 1 3 c7State).2 = .outOfStock) ∧
    ((0 : Int) < 0 → hasActiveLoan 1 1 c7State = true →
      (Student.borrow_book 1 1 3 c7State).2 = .alreadyBorrowed ∧
      (Teacher.borrow_book 1 1 3 c7State).2 = .alreadyBorrowed) :=
  c7_borrow_check_order c7State 1 1 3 (⟨1, 0⟩ : Book) (by decide)

/-! ## C8: a non-owner return is rejected with no state change -/

/-- C8: a Return on an existing loan by a user who is not its owner
answers Unauthorized and leaves the whole state unchanged — the loan's
`returned` flag and `return_date` and the book's `copies_available`
included — on both role paths. -/
theorem c8_unauthorized_return_rejected_unchanged (s : LibState)
    (uid rid : Nat) (today : Int) (r : BorrowRecord)
    (hr : s.records.lookup rid = some r)
    (hne : r.user_id ≠ uid) :
    Student.return_book uid rid today s = (s, .unauthorized) ∧
    Teacher.return_book uid rid today s = (s, .unauthorized) := by
  constructor <;> simp [Student.return_book, Teacher.return_book, hr, hne]

/-- C8 witness: user 2 returning loan 1 of `c7State` (owned by user 1)
is rejected with Unauthorized and changes nothing. -/
theorem c8_unauthorized_return_rejected_unchanged_witness :
    Student.return_book 2 1 3 c7State = (c7State, .unauthorized) ∧
    Teacher.return_book 2 1 3 c7State = (c7State, .unauthorized) :=
  c8_unauthorized_return_rejected_unchanged c7State 2 1 3
    (⟨1, 1, 0, 7, none, false, 0⟩ : BorrowRecord) (by decide) (by decide)

/-! ## C9: fine monotone in the reference instant -/

/-- C9: for an unreturned loan overdue at `t1`, the fine the fines view
charges as of a later instant `t2` is at least the fine as of `t1`. -/
theorem c9_fine_monotone (r : BorrowRecord) (t1 t2 : Int)
    (hact : r.returned = false)
    (hover : r.due_date < t1)
    (h12 : t1 ≤ t2) :
    Student.fineContribution r t1 ≤ Student.fineContribution r t2 := by
  have hover2 : r.due_date < t2 := lt_of_lt_of_le hover h12
  have h1 : r.returned = false ∧ r.due_date < t1 := ⟨hact, hover⟩
  have h2 : r.returned = false ∧ r.due_date < t2 := ⟨hact, hover2⟩
  rw [Student.fineContribution, Student.fineContribution, if_pos h1, if_pos h2]
  have h5 : (0 : Int) ≤ 5 := by norm_num
  have hd : t1 - r.due_date ≤ t2 - r.due_date := by omega
  exact mul_le_mul_of_nonneg_right hd h5

/-- C9 witness: the active loan of `c7State` (due day 7) accrues a fine
of 15 by day 10 and 25 by day 12, and the theorem orders them. -/
theorem c9_fine_monotone_witness :
    Student.fineContribution ⟨1, 1, 0, 7, none, false, 0⟩ 10
      ≤ Student.fineContribution ⟨1, 1, 0, 7, none, false, 0⟩ 12 :=
  c9_fine_monotone (⟨1, 1, 0, 7, none, false, 0⟩ : BorrowRecord) 10 12
    (by decide) (by decide) (by decide)

/-! ## C6 (amended): which operations change `copies_available` -/

/-- C6 amended: the lending handlers change a book's
`copies_available` by exactly −1 on a successful Borrow and +1 on a
successful Return, and a rejected borrow or return leaves the state
untouched; but the admin `edit_book` operation ALSO rewrites
`copies_available`, to `max (new_total - (copies_total -
copies_available)) 0`, without any lending operation. -/
theorem c6_available_mutations (s : LibState) (uid bid rid : Nat)
    (today new_total : Int) (r : BorrowRecord) (book : Book)
    (hb : s.books.lookup bid = some book)
    (hr : s.records.lookup rid = some r) :
    ((Student.borrow_book uid bid today s).2 = .ok →
      availableOf (Student.borrow_book uid bid today s).1 bid
        = some (book.copies_available - 1)) ∧
    ((Teacher.borrow_book uid bid today s).2 = .ok →
      availableOf (Teacher.borrow_book uid bid today s).1 bid
        = some (book.copies_available - 1)) ∧
    (r.book_id = bid → (Student.return_book uid rid today s).2 = .ok →
      availableOf (Student.return_book uid rid today s).1 bid
        = some (book.copies_available + 1)) ∧
    (r.book_id = bid → (Teacher.return_book uid rid today s).2 = .ok →
      availableOf (Teacher.return_book uid rid today s).1 bid
        = some (book.copies_available + 1)) ∧
    (availableOf (Admin.edit_book bid new_total s) bid
      = some (max (new_total - (book.copies_total - book.copies_available)) 0)) ∧
    ((Student.borrow_book uid bid today s).2 ≠ .ok →
      (Student.borrow_book uid bid today s).1 = s) ∧
    ((Teacher.borrow_book uid bid today s).2 ≠ .ok →
      (Teacher.borrow_book uid bid today s).1 = s) ∧
    ((Student.return_book uid rid today s).2 ≠ .ok →
      (Student.return_book uid rid today s).1 = s) ∧
    ((Teacher.return_book uid rid today s).2 ≠ .ok →
      (Teacher.return_book uid rid today s).1 = s) := by
  refine ⟨?_, ?_, ?_, ?_, ?_, ?_, ?_, ?_, ?_⟩
  · intro hok
    by_cases h1 : book.copies_available ≤ 0
    · simp [Student.borrow_book, hb, h1] at hok
    · by_cases h2 : hasActiveLoan uid bid s = true
      · simp [Student.borrow_book, hb, h1, h2] at hok
      · simp [Student.borrow_book, hb, h1, h2, availableOf, lookup_updateRow]
  · intro hok
    by_cases h1 : book.copies_available ≤ 0
    · simp [Teacher.borrow_book, hb, h1] at hok
    · by_cases h2 : hasActiveLoan uid bid s = true
      · simp [Teacher.borrow_book, hb, h1, h2] at hok
      · simp [Teacher.borrow_book, hb, h1, h2, availableOf, lookup_updateRow]
  · intro hbid hok
    by_cases h1 : r.user_id = uid
    · by_cases h2 : r.returned = true
      · simp [Student.return_book, hr, h1, h2] at hok
      · subst hbid
        simp [Student.return_book, hr, h1, h2, availableOf, lookup_updateRow, hb]
    · simp [Student.return_book, hr, h1] at hok
  · intro hbid hok
    by_cases h1 : r.user_id = uid
    · subst hbid
      simp [Teacher.return_book, hr, h1, availableOf, lookup_updateRow, hb]
    · simp [Teacher.return_book, hr, h1] at hok
  · simp [Admin.edit_book, hb, availableOf, lookup_updateRow]
  · intro hne
    by_cases h1 : book.copies_available ≤ 0
    · simp [Student.borrow_book, hb, h1]
    · by_cases h2 : hasActiveLoan uid bid s = true
      · simp [Student.borrow_book, hb, h1, h2]
      · exact absurd (by simp [Student.borrow_book, hb, h1, h2]) hne
  · intro hne
    by_cases h1 : book.copies_available ≤ 0
    · simp [Teacher.borrow_book, hb, h1]
    · by_cases h2 : hasActiveLoan uid bid s = true
      · simp [Teacher.borrow_book, hb, h1, h2]
      · exact absurd (by simp [Teacher.borrow_book, hb, h1, h2]) hne
  · intro hne
    by_cases h1 : r.user_id = uid
    · by_cases h2 : r.returned = true
      · simp [Student.return_book, hr, h1, h2]
      · exact absurd (by simp [Student.return_book, hr, h1, h2]) hne
    · simp [Student.return_book, hr, h1]
  · intro hne
    by_cases h1 : r.user_id = uid
    · exact absurd (by simp [Teacher.return_book, hr, h1]) hne
    · simp [Teacher.return_book, hr, h1]

/-- C6 amended witness: instantiated on `c7State` (book 1: total 1,
available 0; loan 1 active, owned by user 1) with an edit to total 5. -/
theorem c6_available_mutations_witness :
    ((Student.borrow_book 1 1 3 c7State).2 = .ok →
      availableOf (Student.borrow_book 1 1 3 c7State).1 1
        = some ((⟨1, 0⟩ : Book).copies_available - 1)) ∧
    ((Teacher.borrow_book 1 1 3 c7State).2 = .ok →
      availableOf (Teacher.borrow_book 1 1 3 c7State).1 1
        = some ((⟨1, 0⟩ : Book).copies_available - 1)) ∧
    ((⟨1, 1, 0, 7, none, false, 0⟩ : BorrowRecord).book_id = 1 →
      (Student.return_book 1 1 3 c7State).2 = .ok →
      availableOf (Student.return_book 1 1 3 c7State).1 1
        = some ((⟨1, 0⟩ : Book).copies_available + 1)) ∧
    ((⟨1, 1, 0, 7, none, false, 0⟩ : BorrowRecord).book_id = 1 →
      (Teacher.return_book 1 1 3 c7State).2 = .ok →
      availableOf (Teacher.return_book 1 1 3 c7State).1 1
        = some ((⟨1, 0⟩ : Book).copies_available + 1)) ∧
    (availableOf (Admin.edit_book 1 5 c7State) 1
      = some (max (5 - ((⟨1, 0⟩ : Book).copies_total
                         - (⟨1, 0⟩ : Book).copies_available)) 0)) ∧
    ((Student.borrow_book 1 1 3 c7State).2 ≠ .ok →
      (Student.borrow_book 1 1 3 c7State).1 = c7State) ∧
    ((Teacher.borrow_book 1 1 3 c7State).2 ≠ .ok →
      (Teacher.borrow_book 1 1 3 c7State).1 = c7State) ∧
    ((Student.return_book 1 1 3 c7State).2 ≠ .ok →
      (Student.return_book 1 1 3 c7State).1 = c7State) ∧
    ((Teacher.return_book 1 1 3 c7State).2 ≠ .ok →
      (Teacher.return_book 1 1 3 c7State).1 = c7State) :=
  c6_available_mutations c7State 1 1 1 3 5
    (⟨1, 1, 0, 7, none, false, 0⟩ : BorrowRecord) (⟨1, 0⟩ : Book)
    (by decide) (by decide)

/-! ## C4 (amended): what the fines view charges -/

/-- The fines-view fold is the sum of the per-record contributions. -/
theorem fines_foldl_eq (today : Int) (l : List (Nat × BorrowRecord)) (acc : Int) :
    l.foldl (fun a p =>
      if p.2.returned = false ∧ p.2.due_date < today then
        a + (today - p.2.due_date) * 5
      else a) acc
      = acc + (l.map (fun p => Student.fineContribution p.2 today)).sum := by
  induction l generalizing acc with
  | nil => simp
  | cons p l ih =>
    simp only [List.foldl_cons, List.map_cons, List.sum_cons]
    by_cases h : p.2.returned = false ∧ p.2.due_date < today
    · rw [if_pos h, ih, Student.fineContribution, if_pos h]
      ring
    · rw [if_neg h, ih, Student.fineContribution, if_neg h]
      ring

/-- The fines view equals the sum of `fineContribution` over the
user's records. -/
theorem fines_eq_sum (uid : Nat) (today : Int) (s : LibState) :
    Student.fines uid today s
      = ((s.records.filter (fun p => p.2.user_id == uid)).map
          (fun p => Student.fineContribution p.2 today)).sum := by
  rw [Student.fines, fines_foldl_eq]
  ring

/-- C4 amended: the fines view charges nothing for a loan that is
already returned — however late it was returned — and charges
`(today - due_date) * 5` for a loan still unreturned and past due;
each of the user's records contributes exactly its `fineContribution`
to the total. -/
theorem c4_fines_decomposition (s : LibState) (uid rid : Nat) (today : Int)
    (r : BorrowRecord) (l1 l2 : List (Nat × BorrowRecord))
    (hsplit : s.records = l1 ++ (rid, r) :: l2)
    (huser : r.user_id = uid) :
    Student.fines uid today s
      = Student.fineContribution r today
        + Student.fines uid today ⟨s.books, l1 ++ l2⟩ ∧
    (r.returned = true → Student.fineContribution r today = 0) ∧
    (r.returned = false → r.due_date < today →
      Student.fineContribution r today = (today - r.due_date) * 5) := by
  refine ⟨?_, ?_, ?_⟩
  · rw [fines_eq_sum, fines_eq_sum, hsplit]
    simp only [List.filter_append, List.filter_cons, List.map_append,
      List.sum_append, huser, beq_self_eq_true, if_pos, List.map_cons,
      List.sum_cons]
    ring
  · intro hret
    rw [Student.fineContribution, if_neg]
    simp [hret]
  · intro hret hdue
    have h : r.returned = false ∧ r.due_date < today := ⟨hret, hdue⟩
    rw [Student.fineContribution, if_pos h]

/-- The single loan of `c4State`: borrowed day 0, due day 7, returned
day 10. -/
def c4Record : BorrowRecord := ⟨1, 1, 0, 7, some 10, true, 0⟩

/-- C4 amended witness: on `c4State` the returned-late loan
contributes 0 to the user's fine total. -/
theorem c4_fines_decomposition_witness :
    Student.fines 1 10 c4State
      = Student.fineContribution c4Record 10
        + Student.fines 1 10 ⟨c4State.books, [] ++ []⟩ ∧
    (c4Record.returned = true → Student.fineContribution c4Record 10 = 0) ∧
    (c4Record.returned = false → c4Record.due_date < 10 →
      Student.fineContribution c4Record 10 = (10 - c4Record.due_date) * 5) :=
  c4_fines_decomposition c4State 1 1 10 c4Record [] [] (by decide) rfl

/-! ## C10: the stored `fine` column is never written after creation -/

/-- Every row of `updateRow k f l` is either an original row or an
original row with `f` applied to its value. -/
theorem mem_updateRow {β : Type} {k : Nat} {f : β → β}
    {l : List (Nat × β)} {p : Nat × β}
    (hp : p ∈ updateRow k f l) : ∃ q ∈ l, p = q ∨ p = (q.1, f q.2) := by
  obtain ⟨q, hq, hqe⟩ := List.mem_map.mp hp
  refine ⟨q, hq, ?_⟩
  by_cases h : q.1 = k
  · right
    rw [← hqe, if_pos h]
  · left
    rw [← hqe, if_neg h]

/-- The student borrow handler either leaves the loan table unchanged
or prepends one fresh record (whose `fine` is 0). -/
theorem student_borrow_records (uid bid : Nat) (today : Int) (s : LibState) :
    (Student.borrow_book uid bid today s).1.records = s.records ∨
    (Student.borrow_book uid bid today s).1.records
      = (freshRecordId s, ⟨uid, bid, today, today + 7, none, false, 0⟩)
          :: s.records := by
  rcases hlb : s.books.lookup bid with _ | book
  · left; simp [Student.borrow_book, hlb]
  · by_cases h1 : book.copies_available ≤ 0
    · left; simp [Student.borrow_book, hlb, h1]
    · by_cases h2 : hasActiveLoan uid bid s = true
      · left; simp [Student.borrow_book, hlb, h1, h2]
      · right; simp [Student.borrow_book, hlb, h1, h2]

/-- The teacher borrow handler either leaves the loan table unchanged
or prepends one fresh record (whose `fine` is 0). -/
theorem teacher_borrow_records (uid bid : Nat) (today : Int) (s : LibState) :
    (Teacher.borrow_book uid bid today s).1.records = s.records ∨
    (Teacher.borrow_book uid bid today s).1.records
      = (freshRecordId s, ⟨uid, bid, today, today + 14, none, false, 0⟩)
          :: s.records := by
  rcases hlb : s.books.lookup bid with _ | book
  · left; simp [Teacher.borrow_book, hlb]
  · by_cases h1 : book.copies_available ≤ 0
    · left; simp [Teacher.borrow_book, hlb, h1]
    · by_cases h2 : hasActiveLoan uid bid s = true
      · left; simp [Teacher.borrow_book, hlb, h1, h2]
      · right; simp [Teacher.borrow_book, hlb, h1, h2]

/-- The student return handler either leaves the loan table unchanged
or marks one record returned — an update that keeps `fine`. -/
theorem student_return_records (uid rid : Nat) (today : Int) (s : LibState) :
    (Student.return_book uid rid today s).1.records = s.records ∨
    (Student.return_book uid rid today s).1.records
      = updateRow rid
          (fun r0 => { r0 with returned := true, return_date := some today })
          s.records := by
  rcases hlr : s.records.lookup rid with _ | r
  · left; simp [Student.return_book, hlr]
  · by_cases h1 : r.user_id = uid
    · by_cases h2 : r.returned = true
      · left; simp [Student.return_book, hlr, h1, h2]
      · right; simp [Student.return_book, hlr, h1, h2]
    · left; simp [Student.return_book, hlr, h1]

/-- The teacher return handler either leaves the loan table unchanged
or marks one record returned — an update that keeps `fine`. -/
theorem teacher_return_records (uid rid : Nat) (today : Int) (s : LibState) :
    (Teacher.return_book uid rid today s).1.records = s.records ∨
    (Teacher.return_book uid rid today s).1.records
      = updateRow rid
          (fun r0 => { r0 with returned := true, return_date := some today })
          s.records := by
  rcases hlr : s.records.lookup rid with _ | r
  · left; simp [Teacher.return_book, hlr]
  · by_cases h1 : r.user_id = uid
    · right; simp [Teacher.return_book, hlr, h1]
    · left; simp [Teacher.return_book, hlr, h1]

/-- `edit_book` never touches the loan table. -/
theorem edit_book_records (bid : Nat) (new_total : Int) (s : LibState) :
    (Admin.edit_book bid new_total s).records = s.records := by
  rw [Admin.edit_book]
  rcases s.books.lookup bid with _ | book <;> rfl

/-- One step of the system never writes a record's `fine` column. -/
theorem step_fine_preserved {s s' : LibState} (hstep : Step s s')
    (ih : ∀ p ∈ s.records, p.2.fine = 0) :
    ∀ p ∈ s'.records, p.2.fine = 0 := by
  cases hstep with
  | student_borrow uid bid today =>
    intro p hp
    rcases student_borrow_records uid bid today s with h | h
    · rw [h] at hp
      exact ih p hp
    · rw [h] at hp
      rcases List.mem_cons.mp hp with rfl | hp'
      · rfl
      · exact ih p hp'
  | teacher_borrow uid bid today =>
    intro p hp
    rcases teacher_borrow_records uid bid today s with h | h
    · rw [h] at hp
      exact ih p hp
    · rw [h] at hp
      rcases List.mem_cons.mp hp with rfl | hp'
      · rfl
      · exact ih p hp'
  | student_return uid rid today =>
    intro p hp
    rcases student_return_records uid rid today s with h | h
    · rw [h] at hp
      exact ih p hp
    · rw [h] at hp
      obtain ⟨q, hq, hcase⟩ := mem_updateRow hp
      rcases hcase with h1 | h1
      · rw [h1]
        exact ih q hq
      · rw [h1]
        exact ih q hq
  | teacher_return uid rid today =>
    intro p hp
    rcases teacher_return_records uid rid today s with h | h
    · rw [h] at hp
      exact ih p hp
    · rw [h] at hp
      obtain ⟨q, hq, hcase⟩ := mem_updateRow hp
      rcases hcase with h1 | h1
      · rw [h1]
        exact ih q hq
      · rw [h1]
        exact ih q hq
  | admin_add bid total =>
    intro p hp
    exact ih p hp
  | admin_edit bid new_total =>
    intro p hp
    rw [edit_book_records] at hp
    exact ih p hp

/-- In every reachable state, every `BorrowRecord` still has its
default `fine` of 0: no modelled operation ever writes the column. -/
theorem reachable_fine_zero {s : LibState} (hs : Reachable s) :
    ∀ p ∈ s.records, p.2.fine = 0 := by
  induction hs with
  | init =>
    intro p hp
    simp [emptyState] at hp
  | step _ hstep ih =>
    exact step_fine_preserved hstep ih

/-- C10: in every reachable state every stored `fine` is still its
default 0, so both stored-fine reports — the chatbot fine total and the
`routes.py` fines list — show nothing, however overdue the user's loans
are. -/
theorem c10_stored_fine_stays_zero (s : LibState) (uid : Nat)
    (hs : Reachable s) :
    s.records.all (fun p => p.2.fine == 0) = true ∧
    Chatbot.check_fines_total uid s = 0 ∧
    Routes.fines_list uid s = [] := by
  have hz := reachable_fine_zero hs
  refine ⟨?_, ?_, ?_⟩
  · rw [List.all_eq_true]
    intro p hp
    have := hz p hp
    simp [this]
  · rw [Chatbot.check_fines_total]
    apply List.sum_eq_zero
    intro x hx
    obtain ⟨p, hp, rfl⟩ := List.mem_map.mp hx
    exact hz p (List.mem_filter.mp hp).1
  · rw [Routes.fines_list, List.map_eq_nil_iff]
    rw [List.filter_eq_nil_iff]
    intro p hp
    have h0 := hz p (List.mem_filter.mp hp).1
    simp [h0]

/-- A small reachable state: admin adds book 1 (one copy), student 1
borrows it on day 0. -/
def c10WitnessState : LibState :=
  (Student.borrow_book 1 1 0 (Admin.add_book 1 1 emptyState)).1

/-- C10 witness: on the concrete reachable state `c10WitnessState`
both stored-fine reports are empty. -/
theorem c10_stored_fine_stays_zero_witness :
    c10WitnessState.records.all (fun p => p.2.fine == 0) = true ∧
    Chatbot.check_fines_total 1 c10WitnessState = 0 ∧
    Routes.fines_list 1 c10WitnessState = [] :=
  c10_stored_fine_stays_zero c10WitnessState 1
    (Reachable.step
      (Reachable.step Reachable.init (Step.admin_add 1 1 emptyState))
      (Step.student_borrow 1 1 0 (Admin.add_book 1 1 emptyState)))
